import Mathlib

/-!
Verification of the banana-counter score store and client against its
specification.  The server is embedded shallowly: the remote key-value
store is an association list from user identifiers to natural-number
scores, and the two route files (the sorted-set realization using
zscore, zincrby and zrange, and the hash realization using hget and
hincrby) become pure functions from a store and a request to a response
and a new store.  JavaScript truthiness of the userId (null, undefined
or the empty string are falsy) is modelled by matching on Option String
and testing for the empty string.  The client pages become state
machines whose fetches carry a Boolean outcome flag; a false flag means
the fetch rejected or its body failed to parse, so the catch block runs
and no state setter is reached.
-/

namespace BananaCounter

/-- The persisted state: user identifier paired with score, as stored
by the remote key-value store.  Reachable states never repeat a key. -/
abbrev Store := List (String × Nat)

/-- Model of redis zscore: the score of member u of the sorted set, or
none when u is not a member. -/
def zscore (s : Store) (u : String) : Option Nat :=
  match s with
  | [] => none
  | (v, n) :: rest => if v = u then some n else zscore rest u

/-- Model of redis hget: the value of field u of the hash, or none when
the field is absent.  A hash field and a sorted-set member are both one
entry of the association list. -/
def hget (s : Store) (u : String) : Option Nat :=
  match s with
  | [] => none
  | (v, n) :: rest => if v = u then some n else hget rest u

/-- Model of the JavaScript expression Number(score) || 0 applied to a
possibly-null score: null becomes 0, a number is kept (0 stays 0). -/
def numberOr0 (o : Option Nat) : Nat := o.getD 0

/-- Model of redis zincrby: atomically add delta to the score of member
u, treating an absent member as 0, and return the new store together
with the new score. -/
def zincrby (s : Store) (delta : Nat) (u : String) : Store × Nat :=
  match s with
  | [] => ([(u, delta)], delta)
  | (v, n) :: rest =>
    if v = u then ((v, n + delta) :: rest, n + delta)
    else
      let r := zincrby rest delta u
      ((v, n) :: r.1, r.2)

/-- Model of redis hincrby: atomically add delta to the value of field
u of the hash, treating an absent field as 0, and return the new store
together with the new value. -/
def hincrby (s : Store) (u : String) (delta : Nat) : Store × Nat :=
  match s with
  | [] => ([(u, delta)], delta)
  | (v, n) :: rest =>
    if v = u then ((v, n + delta) :: rest, n + delta)
    else
      let r := hincrby rest u delta
      ((v, n) :: r.1, r.2)

/-- Comparator realizing redis zrange with rev: higher score first, and
among equal scores the lexicographically larger member first (the
reverse of the sorted-set canonical order). -/
def zrevLe (a b : String × Nat) : Bool :=
  decide (b.2 < a.2) || (decide (a.2 = b.2) && decide (b.1 ≤ a.1))

/-- Model of the zrange call of the GET route: the whole set ordered by
score descending, indices 0 through 9, i.e. the first ten entries.  The
JavaScript loop that pairs members with scores is the identity on this
pair representation. -/
def zrangeTop10 (s : Store) : List (String × Nat) :=
  (s.mergeSort zrevLe).take 10

/-- Response bodies produced by the two route files. -/
inductive Body where
  | scoreB (n : Nat)
  | errorB (msg : String)
  | leaderboardB (l : List (String × Nat))
deriving DecidableEq, Repr

/-- An HTTP response: status code and JSON body. -/
structure Response where
  status : Nat
  body : Body
deriving DecidableEq, Repr

/-- The GET handler of the sorted-set route file: with a truthy userId
it returns the zscore of that user (absent treated as 0); otherwise it
returns the top-ten leaderboard.  The store is never changed. -/
def zGET (store : Store) (userId : Option String) : Response × Store :=
  match userId with
  | some u =>
    if u = "" then (⟨200, Body.leaderboardB (zrangeTop10 store)⟩, store)
    else (⟨200, Body.scoreB (numberOr0 (zscore store u))⟩, store)
  | none => (⟨200, Body.leaderboardB (zrangeTop10 store)⟩, store)

/-- The POST handler of the sorted-set route file: a falsy userId is
rejected with status 400, otherwise zincrby adds 1 and the new score is
returned. -/
def zPOST (store : Store) (userId : Option String) : Response × Store :=
  match userId with
  | none => (⟨400, Body.errorB "User ID is required"⟩, store)
  | some u =>
    if u = "" then (⟨400, Body.errorB "User ID is required"⟩, store)
    else
      let r := zincrby store 1 u
      (⟨200, Body.scoreB r.2⟩, r.1)

/-- The GET handler of the hash route file: a falsy userId is rejected
with status 400, otherwise the hget value is returned, absent treated
as 0.  The store is never changed. -/
def hGET (store : Store) (userId : Option String) : Response × Store :=
  match userId with
  | none => (⟨400, Body.errorB "User ID is required"⟩, store)
  | some u =>
    if u = "" then (⟨400, Body.errorB "User ID is required"⟩, store)
    else (⟨200, Body.scoreB (numberOr0 (hget store u))⟩, store)

/-- The POST handler of the hash route file: a falsy userId is rejected
with status 400, otherwise hincrby adds 1 and the new value is
returned. -/
def hPOST (store : Store) (userId : Option String) : Response × Store :=
  match userId with
  | none => (⟨400, Body.errorB "User ID is required"⟩, store)
  | some u =>
    if u = "" then (⟨400, Body.errorB "User ID is required"⟩, store)
    else
      let r := hincrby store u 1
      (⟨200, Body.scoreB r.2⟩, r.1)

/-- The store after n successful POST requests for user u against the
sorted-set route. -/
def zpostN (s : Store) (u : String) : Nat → Store
  | 0 => s
  | n + 1 => (zPOST (zpostN s u n) (some u)).2

/-- The store after n successful POST requests for user u against the
hash route. -/
def hpostN (s : Store) (u : String) : Nat → Store
  | 0 => s
  | n + 1 => (hPOST (hpostN s u n) (some u)).2

/-- A request of the equivalence claim: a GET carrying a userId query
parameter (the parameter may be the empty string), or a POST whose
parsed JSON body may or may not carry a userId. -/
inductive Req where
  | getScoreReq (userId : String)
  | postReq (userId : Option String)
deriving DecidableEq, Repr

/-- One request against the sorted-set route file. -/
def zStep (s : Store) : Req → Response × Store
  | .getScoreReq u => zGET s (some u)
  | .postReq u => zPOST s u

/-- One request against the hash route file. -/
def hStep (s : Store) : Req → Response × Store
  | .getScoreReq u => hGET s (some u)
  | .postReq u => hPOST s u

/-- Run a request sequence against the sorted-set route, collecting the
responses and the final store. -/
def zRun (s : Store) : List Req → List Response × Store
  | [] => ([], s)
  | r :: rs =>
    let p := zStep s r
    let q := zRun p.2 rs
    (p.1 :: q.1, q.2)

/-- Run a request sequence against the hash route, collecting the
responses and the final store. -/
def hRun (s : Store) : List Req → List Response × Store
  | [] => ([], s)
  | r :: rs =>
    let p := hStep s r
    let q := hRun p.2 rs
    (p.1 :: q.1, q.2)

/-- A request on which the two route files are expected to agree: a GET
must carry a non-empty userId (a GET whose userId is the empty string
is answered with the leaderboard by the sorted-set route but with a 400
by the hash route). -/
def goodReq : Req → Prop
  | .getScoreReq u => u ≠ ""
  | .postReq _ => True

/-- State of the main client page: entered identifier, displayed score,
displayed leaderboard, request-in-flight flag.  The animation state of
the flying bananas is rendering only and is out of scope. -/
structure ClientState where
  userId : String
  score : Option Nat
  leaderboard : List (String × Nat)
  isLoading : Bool
deriving DecidableEq, Repr

/-- State of the simpler client variant, which displays no
leaderboard. -/
structure AltClientState where
  userId : String
  score : Option Nat
  isLoading : Bool
deriving DecidableEq, Repr

/-- Requests a client can issue to the API route. -/
inductive ClientReq where
  | postScore (userId : String)
  | getLeaderboard
  | getUserScore (userId : String)
deriving DecidableEq, Repr

/-- The JavaScript field access data.score on a parsed response body:
undefined (here none) unless the body is a score object. -/
def bodyScore : Body → Option Nat
  | .scoreB n => some n
  | _ => none

/-- The JavaScript expression data.leaderboard || [] on a parsed
response body. -/
def bodyLeaderboard : Body → List (String × Nat)
  | .leaderboardB l => l
  | _ => []

/-- The fetchUserScore effect body of the main page: on success the
displayed score becomes data.score of the GET response; on failure the
error is logged and the state is untouched. -/
def fetchUserScore (cs : ClientState) (store : Store) (ok : Bool) : ClientState :=
  if ok then
    { cs with score := bodyScore (zGET store (some cs.userId)).1.body }
  else cs

/-- The fetchLeaderboard callback of the main page: on success the
displayed leaderboard becomes data.leaderboard || [] of the GET
response; on failure the error is logged and the state is untouched. -/
def fetchLeaderboard (cs : ClientState) (store : Store) (ok : Bool) : ClientState :=
  if ok then
    { cs with leaderboard := bodyLeaderboard (zGET store none).1.body }
  else cs

/-- The handleIncrement handler of the main page.  It returns the new
client state, the new store, and the list of requests issued.  Control
flow follows the source: an empty identifier or an in-flight request is
a no-op; otherwise the POST is issued, on success the displayed score
is set from data.score and fetchLeaderboard is awaited, on failure the
catch block leaves score and leaderboard alone; finally isLoading is
cleared. -/
def handleIncrement (cs : ClientState) (store : Store) (okPost okLb : Bool) :
    ClientState × Store × List ClientReq :=
  if cs.userId = "" ∨ cs.isLoading = true then (cs, store, [])
  else if okPost then
    let r := zPOST store (some cs.userId)
    let cs1 := { cs with score := bodyScore r.1.body }
    let cs2 := fetchLeaderboard cs1 r.2 okLb
    ({ cs2 with isLoading := false }, r.2,
      [ClientReq.postScore cs.userId, ClientReq.getLeaderboard])
  else
    ({ cs with isLoading := false }, store, [ClientReq.postScore cs.userId])

/-- The handleIncrement handler of the simpler client variant: same
guard, but after the POST no leaderboard request is issued, because
this page displays no leaderboard.  It talks to the hash route. -/
def handleIncrementAlt (cs : AltClientState) (store : Store) (okPost : Bool) :
    AltClientState × Store × List ClientReq :=
  if cs.userId = "" ∨ cs.isLoading = true then (cs, store, [])
  else if okPost then
    let r := hPOST store (some cs.userId)
    ({ cs with score := bodyScore r.1.body, isLoading := false }, r.2,
      [ClientReq.postScore cs.userId])
  else
    ({ cs with isLoading := false }, store, [ClientReq.postScore cs.userId])

/-- Model of JavaScript String.prototype.toLowerCase, applied character
by character. -/
def jsToLower (s : List Char) : List Char := s.map Char.toLower

/-- Model of JavaScript String.prototype.trim: drop whitespace from the
front, then from the back. -/
def jsTrim (s : List Char) : List Char :=
  ((s.dropWhile Char.isWhitespace).reverse.dropWhile Char.isWhitespace).reverse

/-- The onChange handler of the main page:
setUserId(value.toLowerCase().trim()). -/
def onChangeMain (s : List Char) : List Char := jsTrim (jsToLower s)

/-- The onChange handler of the simpler client variant:
setUserId(value.toLowerCase()). -/
def onChangeAlt (s : List Char) : List Char := jsToLower s

/-! Basic facts about the increment primitives. -/

theorem zincrby_ret (s : Store) (d : Nat) (u : String) :
    (zincrby s d u).2 = numberOr0 (zscore s u) + d := by
  induction s with
  | nil => simp [zincrby, zscore, numberOr0]
  | cons p rest ih =>
    obtain ⟨v, n⟩ := p
    by_cases h : v = u <;> simp [zincrby, zscore, h, numberOr0, ih]

theorem zscore_zincrby_self (s : Store) (d : Nat) (u : String) :
    zscore (zincrby s d u).1 u = some (numberOr0 (zscore s u) + d) := by
  induction s with
  | nil => simp [zincrby, zscore, numberOr0]
  | cons p rest ih =>
    obtain ⟨v, n⟩ := p
    by_cases h : v = u <;> simp [zincrby, zscore, h, numberOr0, ih]

theorem zscore_zincrby_ne (s : Store) (d : Nat) (u v : String) (hvu : v ≠ u) :
    zscore (zincrby s d u).1 v = zscore s v := by
  have huv : u ≠ v := fun h => hvu h.symm
  induction s with
  | nil => simp [zincrby, zscore, huv]
  | cons p rest ih =>
    obtain ⟨w, n⟩ := p
    by_cases h : w = u
    · subst h
      simp [zincrby, zscore, huv]
    · simp [zincrby, zscore, h, ih]

theorem hincrby_eq_zincrby (s : Store) (u : String) (d : Nat) :
    hincrby s u d = zincrby s d u := by
  induction s with
  | nil => simp [hincrby, zincrby]
  | cons p rest ih =>
    obtain ⟨v, n⟩ := p
    by_cases h : v = u <;> simp [hincrby, zincrby, h, ih]

theorem hget_eq_zscore (s : Store) (u : String) : hget s u = zscore s u := by
  induction s with
  | nil => simp [hget, zscore]
  | cons p rest ih =>
    obtain ⟨v, n⟩ := p
    by_cases h : v = u <;> simp [hget, zscore, h, ih]

/-! Facts about iterated increments. -/

theorem zscore_zpostN (s : Store) (u : String) (hu : u ≠ "")
    (h0 : zscore s u = none) (n : Nat) :
    numberOr0 (zscore (zpostN s u n) u) = n := by
  induction n with
  | zero => simp [zpostN, h0, numberOr0]
  | succ n ih =>
    have hstep : (zPOST (zpostN s u n) (some u)).2 = (zincrby (zpostN s u n) 1 u).1 := by
      simp [zPOST, hu]
    rw [zpostN, hstep, zscore_zincrby_self]
    simpa [numberOr0] using ih

theorem hpostN_eq_zpostN (s : Store) (u : String) (n : Nat) :
    hpostN s u n = zpostN s u n := by
  induction n with
  | zero => rfl
  | succ n ih =>
    simp only [hpostN, zpostN, ih]
    by_cases hu : u = ""
    · subst hu
      simp [hPOST, zPOST]
    · simp [hPOST, zPOST, hu, hincrby_eq_zincrby]

/-! Facts about request sequences: the two route files agree on every
request whose GET userId is non-empty. -/

theorem hStep_eq_zStep (s : Store) (r : Req) (h : goodReq r) :
    hStep s r = zStep s r := by
  cases r with
  | getScoreReq u =>
    simp only [goodReq] at h
    simp [hStep, zStep, hGET, zGET, h, hget_eq_zscore]
  | postReq u =>
    cases u with
    | none => rfl
    | some v =>
      by_cases hv : v = "" <;>
        simp [hStep, zStep, hPOST, zPOST, hv, hincrby_eq_zincrby]

theorem hRun_eq_zRun (s : Store) (rs : List Req)
    (h : ∀ r ∈ rs, goodReq r) : hRun s rs = zRun s rs := by
  induction rs generalizing s with
  | nil => rfl
  | cons r rs ih =>
    have hr : goodReq r := h r (List.mem_cons_self r rs)
    have hrs : ∀ x ∈ rs, goodReq x := fun x hx => h x (List.mem_cons_of_mem r hx)
    simp [hRun, zRun, hStep_eq_zStep s r hr, ih _ hrs]

/-! Character-level facts: lowercasing never creates or destroys
whitespace, so trimming commutes with lowercasing. -/

theorem toNat_ofNat_valid {m : Nat} (h : m.isValidChar) :
    (Char.ofNat m).toNat = m := by
  rw [Char.ofNat, dif_pos h]
  rfl

theorem char_toNat_inj {a b : Char} (h : a.toNat = b.toNat) : a = b := by
  rw [← Char.ofNat_toNat a, h, Char.ofNat_toNat]

theorem isWhitespace_iff_toNat (c : Char) :
    c.isWhitespace = true ↔
      (c.toNat = 32 ∨ c.toNat = 9 ∨ c.toNat = 13 ∨ c.toNat = 10) := by
  constructor
  · intro h
    simp only [Char.isWhitespace, Bool.or_eq_true, decide_eq_true_eq] at h
    rcases h with ((h | h) | h) | h <;> subst h <;> simp
  · intro h
    rcases h with h | h | h | h
    · have : c = ' ' := char_toNat_inj (by rw [h]; rfl)
      subst this; rfl
    · have : c = '\t' := char_toNat_inj (by rw [h]; rfl)
      subst this; rfl
    · have : c = '\r' := char_toNat_inj (by rw [h]; rfl)
      subst this; rfl
    · have : c = '\n' := char_toNat_inj (by rw [h]; rfl)
      subst this; rfl

theorem isWhitespace_toLower (c : Char) :
    (Char.toLower c).isWhitespace = c.isWhitespace := by
  rw [show Char.toLower c =
      if c.toNat ≥ 65 ∧ c.toNat ≤ 90 then Char.ofNat (c.toNat + 32) else c
    from rfl]
  split
  · next h =>
    obtain ⟨h1, h2⟩ := h
    have hv : (c.toNat + 32).isValidChar := Or.inl (by omega)
    have hx : (Char.ofNat (c.toNat + 32)).toNat = c.toNat + 32 :=
      toNat_ofNat_valid hv
    have hres : (Char.ofNat (c.toNat + 32)).isWhitespace = false := by
      rw [Bool.eq_false_iff]
      intro hw
      rcases (isWhitespace_iff_toNat _).mp hw with h' | h' | h' | h' <;>
        rw [hx] at h' <;> omega
    have hc : c.isWhitespace = false := by
      rw [Bool.eq_false_iff]
      intro hw
      rcases (isWhitespace_iff_toNat _).mp hw with h' | h' | h' | h' <;> omega
    rw [hres, hc]
  · rfl

theorem isWhitespace_comp_toLower :
    (Char.isWhitespace ∘ Char.toLower) = Char.isWhitespace :=
  funext isWhitespace_toLower

theorem jsTrim_jsToLower (s : List Char) :
    jsTrim (jsToLower s) = jsToLower (jsTrim s) := by
  unfold jsTrim jsToLower
  rw [List.dropWhile_map, isWhitespace_comp_toLower, ← List.map_reverse,
    List.dropWhile_map, isWhitespace_comp_toLower, ← List.map_reverse]

/-! Facts about the leaderboard comparator and zrange. -/

theorem zrevLe_total (a b : String × Nat) : zrevLe a b || zrevLe b a := by
  simp only [zrevLe, Bool.or_eq_true, Bool.and_eq_true, decide_eq_true_eq]
  rcases Nat.lt_trichotomy a.2 b.2 with h | h | h
  · right; left; exact h
  · rcases le_total a.1 b.1 with hs | hs
    · right; right; exact ⟨h.symm, hs⟩
    · left; right; exact ⟨h, hs⟩
  · left; left; exact h

theorem zrevLe_trans (a b c : String × Nat) :
    zrevLe a b → zrevLe b c → zrevLe a c := by
  simp only [zrevLe, Bool.or_eq_true, Bool.and_eq_true, decide_eq_true_eq]
  intro h1 h2
  rcases h1 with h1 | ⟨h1e, h1s⟩
  · rcases h2 with h2 | ⟨h2e, _⟩
    · left; omega
    · left; omega
  · rcases h2 with h2 | ⟨h2e, h2s⟩
    · left; omega
    · right; exact ⟨by omega, le_trans h2s h1s⟩

theorem zrangeTop10_sorted (s : Store) :
    (zrangeTop10 s).Pairwise (fun a b => b.2 ≤ a.2) := by
  have h := List.sorted_mergeSort zrevLe_trans zrevLe_total s
  have h2 : (s.mergeSort zrevLe).Pairwise (fun a b => b.2 ≤ a.2) := by
    refine h.imp ?_
    intro a b hab
    simp only [zrevLe, Bool.or_eq_true, Bool.and_eq_true, decide_eq_true_eq] at hab
    rcases hab with hab | ⟨hab, _⟩ <;> omega
  exact List.Pairwise.sublist (List.take_sublist 10 _) h2

theorem zrangeTop10_length (s : Store) :
    (zrangeTop10 s).length = min 10 s.length := by
  simp [zrangeTop10]

/-! The claims. -/

/-- Claim C1: for every store and non-empty user u, the POST handler of
either route returns status 200 with the incremented score of u in the
score field, adds exactly 1 to the score of u, and leaves every other
user untouched. -/
theorem c1_post_increments (s : Store) (u : String) (hu : u ≠ "") :
    (zPOST s (some u)).1 = ⟨200, Body.scoreB (numberOr0 (zscore s u) + 1)⟩ ∧
    zscore (zPOST s (some u)).2 u = some (numberOr0 (zscore s u) + 1) ∧
    (∀ v, v ≠ u → zscore (zPOST s (some u)).2 v = zscore s v) ∧
    (hPOST s (some u)).1 = ⟨200, Body.scoreB (numberOr0 (hget s u) + 1)⟩ ∧
    hget (hPOST s (some u)).2 u = some (numberOr0 (hget s u) + 1) ∧
    (∀ v, v ≠ u → hget (hPOST s (some u)).2 v = hget s v) := by
  have hz1 : (zPOST s (some u)).1 = ⟨200, Body.scoreB (zincrby s 1 u).2⟩ := by
    simp [zPOST, hu]
  have hz2 : (zPOST s (some u)).2 = (zincrby s 1 u).1 := by
    simp [zPOST, hu]
  have hh1 : (hPOST s (some u)).1 = ⟨200, Body.scoreB (hincrby s u 1).2⟩ := by
    simp [hPOST, hu]
  have hh2 : (hPOST s (some u)).2 = (hincrby s u 1).1 := by
    simp [hPOST, hu]
  refine ⟨?_, ?_, ?_, ?_, ?_, ?_⟩
  · rw [hz1, zincrby_ret]
  · rw [hz2, zscore_zincrby_self]
  · intro v hv
    rw [hz2, zscore_zincrby_ne _ _ _ _ hv]
  · rw [hh1, hincrby_eq_zincrby, zincrby_ret, hget_eq_zscore]
  · rw [hh2, hincrby_eq_zincrby, hget_eq_zscore, hget_eq_zscore,
      zscore_zincrby_self]
  · intro v hv
    rw [hh2, hincrby_eq_zincrby, hget_eq_zscore, hget_eq_zscore,
      zscore_zincrby_ne _ _ _ _ hv]

/-- Witness for C1 at the store with alice at 2: the POST response
carries score 3. -/
theorem c1_post_increments_w :
    (zPOST [("alice", 2)] (some "alice")).1 = ⟨200, Body.scoreB 3⟩ := by
  have h := (c1_post_increments [("alice", 2)] "alice" (by decide)).1
  rw [h]
  simp [zscore, numberOr0]

/-- Claim C2: starting from a store where the non-empty user u was
never incremented, after n successful increments the GET handler of
either route answers n in the score field (in particular 0 before any
increment), and a GET never changes the store. -/
theorem c2_getScore_counts (s : Store) (u : String) (n : Nat)
    (hu : u ≠ "") (h0 : zscore s u = none) :
    (zGET (zpostN s u n) (some u)).1 = ⟨200, Body.scoreB n⟩ ∧
    (hGET (hpostN s u n) (some u)).1 = ⟨200, Body.scoreB n⟩ ∧
    (∀ t q, (zGET t q).2 = t) ∧
    (∀ t q, (hGET t q).2 = t) := by
  refine ⟨?_, ?_, ?_, ?_⟩
  · simp [zGET, hu, zscore_zpostN s u hu h0 n]
  · simp [hGET, hu, hpostN_eq_zpostN, hget_eq_zscore,
      zscore_zpostN s u hu h0 n]
  · intro t q
    cases q with
    | none => rfl
    | some v =>
      simp only [zGET]
      split <;> rfl
  · intro t q
    cases q with
    | none => rfl
    | some v =>
      simp only [hGET]
      split <;> rfl

/-- Witness for C2: three increments of alice on the empty store, then
a GET, answers 3. -/
theorem c2_getScore_counts_w :
    (zGET (zpostN [] "alice" 3) (some "alice")).1 = ⟨200, Body.scoreB 3⟩ :=
  (c2_getScore_counts [] "alice" 3 (by decide) rfl).1

/-- Claim C3: the leaderboard read returns entries sorted by score
descending, its length is the minimum of 10 and the number of distinct
users of the store, it is empty on the empty store, and a leaderboard
read never changes the store. -/
theorem c3_leaderboard (s : Store) (hnd : (s.map Prod.fst).Nodup) :
    (zrangeTop10 s).length = min 10 ((s.map Prod.fst).dedup.length) ∧
    (zrangeTop10 s).Pairwise (fun a b => b.2 ≤ a.2) ∧
    zrangeTop10 ([] : Store) = [] ∧
    (∀ q, (zGET s q).2 = s) := by
  refine ⟨?_, zrangeTop10_sorted s, by simp [zrangeTop10], ?_⟩
  · rw [List.dedup_eq_self.mpr hnd, List.length_map, zrangeTop10_length]
  · intro q
    cases q with
    | none => rfl
    | some v =>
      simp only [zGET]
      split <;> rfl

/-- Witness for C3 on a two-user store. -/
theorem c3_leaderboard_w :
    (zrangeTop10 [("alice", 3), ("bob", 1)]).Pairwise (fun a b => b.2 ≤ a.2) :=
  (c3_leaderboard [("alice", 3), ("bob", 1)] (by decide)).2.1

/-- Claim C4: a POST with a missing or empty userId is rejected with
status 400 and the error body, and the store is left completely
unchanged, on both routes. -/
theorem c4_post_validation (s : Store) :
    zPOST s none = (⟨400, Body.errorB "User ID is required"⟩, s) ∧
    zPOST s (some "") = (⟨400, Body.errorB "User ID is required"⟩, s) ∧
    hPOST s none = (⟨400, Body.errorB "User ID is required"⟩, s) ∧
    hPOST s (some "") = (⟨400, Body.errorB "User ID is required"⟩, s) :=
  ⟨rfl, by simp [zPOST], rfl, by simp [hPOST]⟩

/-- Claim C5 counterexample: on the sorted-set route, a GET without a
userId parameter is not answered with 400 and the error body (it is
answered with 200 and the leaderboard). -/
theorem c5_get_missing_cex :
    ¬ ((zGET ([] : Store) none).1 = ⟨400, Body.errorB "User ID is required"⟩) := by
  intro h
  have h2 : (zGET ([] : Store) none).1.status = 400 := by rw [h]
  simp [zGET] at h2

/-- Claim C5 amended: only the hash route answers a GET with missing
userId with 400 and the error body (store unchanged); the sorted-set
route answers such a GET with 200 and the top-ten leaderboard. -/
theorem c5_get_missing (s : Store) :
    hGET s none = (⟨400, Body.errorB "User ID is required"⟩, s) ∧
    zGET s none = (⟨200, Body.leaderboardB (zrangeTop10 s)⟩, s) :=
  ⟨rfl, rfl⟩

/-- Claim C6 counterexample: the two route files are not
response-equivalent on every sequence of GET-with-userId and POST
requests: a GET whose userId parameter is the empty string is answered
with the leaderboard by the sorted-set route but with a 400 by the hash
route. -/
theorem c6_equiv_cex :
    (zRun ([] : Store) [Req.getScoreReq ""]).1 ≠
      (hRun ([] : Store) [Req.getScoreReq ""]).1 := by
  intro h
  have h2 : ((zRun ([] : Store) [Req.getScoreReq ""]).1.map Response.status) =
      ((hRun ([] : Store) [Req.getScoreReq ""]).1.map Response.status) := by
    rw [h]
  simp [zRun, hRun, zStep, hStep, zGET, hGET] at h2

/-- Claim C6 amended: for every request sequence in which each GET
carries a non-empty userId (POST bodies unconstrained), the two route
files produce identical response lists from the same starting store,
and afterwards every user has the same score under both realizations. -/
theorem c6_equiv (s : Store) (rs : List Req) (h : ∀ r ∈ rs, goodReq r) :
    (hRun s rs).1 = (zRun s rs).1 ∧
    (∀ u, hget (hRun s rs).2 u = zscore (zRun s rs).2 u) := by
  have he := hRun_eq_zRun s rs h
  exact ⟨by rw [he], fun u => by rw [he, hget_eq_zscore]⟩

/-- Witness for C6 on a POST followed by a GET for the same user. -/
theorem c6_equiv_w :
    (hRun ([] : Store) [Req.postReq (some "a"), Req.getScoreReq "a"]).1 =
      (zRun ([] : Store) [Req.postReq (some "a"), Req.getScoreReq "a"]).1 :=
  (c6_equiv [] [Req.postReq (some "a"), Req.getScoreReq "a"]
    (by simp [goodReq])).1

/-- Claim C7 counterexample: the simpler client variant lowercases but
does not trim, so for the entered string of space, capital A, space the
userId it uses differs from lowercase(trim(s)). -/
theorem c7_normalize_cex :
    onChangeAlt [' ', 'A', ' '] ≠ jsToLower (jsTrim [' ', 'A', ' ']) := by
  decide

/-- Claim C7 amended: the main page normalizes the entered identifier
with toLowerCase followed by trim, which equals lowercase of trim; the
simpler client variant applies only toLowerCase and does not trim. -/
theorem c7_normalize (s : List Char) :
    onChangeMain s = jsToLower (jsTrim s) ∧ onChangeAlt s = jsToLower s :=
  ⟨jsTrim_jsToLower s, rfl⟩

/-- Claim C8 counterexample: on the simpler client variant a successful
increment action issues no leaderboard request afterwards. -/
theorem c8_increment_cex :
    ClientReq.getLeaderboard ∉
      (handleIncrementAlt ⟨"bob", none, false⟩ [] true).2.2 := by
  decide

/-- Claim C8 amended: on the main page the increment action is a no-op
when the identifier is empty or a request is in flight, and otherwise
issues exactly one increment POST followed by one leaderboard GET, sets
the displayed score to the returned value, and refreshes the displayed
leaderboard from the post-increment store; the simpler client variant
has the same guard and score update but issues only the POST and no
leaderboard request. -/
theorem c8_increment_action (cs : ClientState) (acs : AltClientState)
    (store : Store) :
    (∀ ok1 ok2, cs.userId = "" ∨ cs.isLoading = true →
      handleIncrement cs store ok1 ok2 = (cs, store, [])) ∧
    (cs.userId ≠ "" → cs.isLoading = false →
      (handleIncrement cs store true true).2.2 =
        [ClientReq.postScore cs.userId, ClientReq.getLeaderboard] ∧
      (handleIncrement cs store true true).1.score =
        some (numberOr0 (zscore store cs.userId) + 1) ∧
      (handleIncrement cs store true true).1.leaderboard =
        zrangeTop10 (handleIncrement cs store true true).2.1) ∧
    (∀ ok, acs.userId = "" ∨ acs.isLoading = true →
      handleIncrementAlt acs store ok = (acs, store, [])) ∧
    (acs.userId ≠ "" → acs.isLoading = false →
      (handleIncrementAlt acs store true).2.2 =
        [ClientReq.postScore acs.userId] ∧
      (handleIncrementAlt acs store true).1.score =
        some (numberOr0 (hget store acs.userId) + 1)) := by
  refine ⟨?_, ?_, ?_, ?_⟩
  · intro ok1 ok2 hg
    unfold handleIncrement
    rw [if_pos hg]
  · intro hne hld
    have hg : ¬(cs.userId = "" ∨ cs.isLoading = true) := by
      simp [hne, hld]
    unfold handleIncrement
    rw [if_neg hg]
    simp [zPOST, hne, bodyScore, fetchLeaderboard, bodyLeaderboard, zGET,
      zincrby_ret]
  · intro ok hg
    unfold handleIncrementAlt
    rw [if_pos hg]
  · intro hne hld
    have hg : ¬(acs.userId = "" ∨ acs.isLoading = true) := by
      simp [hne, hld]
    unfold handleIncrementAlt
    rw [if_neg hg]
    simp [hPOST, hne, bodyScore, hincrby_eq_zincrby, zincrby_ret,
      hget_eq_zscore]

/-- Witness for C8: with user bob, no request in flight and the empty
store, the increment action issues the POST and then the leaderboard
GET. -/
theorem c8_increment_action_w :
    (handleIncrement ⟨"bob", none, [], false⟩ [] true true).2.2 =
      [ClientReq.postScore "bob", ClientReq.getLeaderboard] :=
  ((c8_increment_action ⟨"bob", none, [], false⟩ ⟨"bob", none, false⟩
    []).2.1 (by decide) rfl).1

/-- Claim C9: a failed fetch never changes displayed state: a failed
user-score fetch or leaderboard fetch leaves the client state exactly
as it was, a failed increment POST leaves score and leaderboard
untouched, and when the POST succeeds but the follow-up leaderboard
fetch fails the displayed leaderboard keeps its prior value. -/
theorem c9_failure_atomic (cs : ClientState) (store : Store) (ok : Bool) :
    fetchUserScore cs store false = cs ∧
    fetchLeaderboard cs store false = cs ∧
    (handleIncrement cs store false ok).1.score = cs.score ∧
    (handleIncrement cs store false ok).1.leaderboard = cs.leaderboard ∧
    (handleIncrement cs store true false).1.leaderboard = cs.leaderboard := by
  refine ⟨rfl, rfl, ?_, ?_, ?_⟩ <;>
    · unfold handleIncrement
      by_cases hg : cs.userId = "" ∨ cs.isLoading = true
      · rw [if_pos hg]
      · rw [if_neg hg]
        simp [fetchLeaderboard]

/-- Claim C10: the server does not normalize identifiers and rejects
only the exact empty string: every non-empty userId, including
whitespace-only ones, passes validation on both POST routes and
increments the counter keyed by exactly that string, leaving every
other key, including trimmed or differently-cased variants, alone. -/
theorem c10_no_normalization (s : Store) (u : String) (hu : u ≠ "") :
    (zPOST s (some u)).1.status = 200 ∧
    (hPOST s (some u)).1.status = 200 ∧
    zscore (zPOST s (some u)).2 u = some (numberOr0 (zscore s u) + 1) ∧
    hget (hPOST s (some u)).2 u = some (numberOr0 (hget s u) + 1) ∧
    (∀ v, v ≠ u →
      zscore (zPOST s (some u)).2 v = zscore s v ∧
      hget (hPOST s (some u)).2 v = hget s v) := by
  have hz2 : (zPOST s (some u)).2 = (zincrby s 1 u).1 := by
    simp [zPOST, hu]
  have hh2 : (hPOST s (some u)).2 = (hincrby s u 1).1 := by
    simp [hPOST, hu]
  refine ⟨by simp [zPOST, hu], by simp [hPOST, hu], ?_, ?_, ?_⟩
  · rw [hz2, zscore_zincrby_self]
  · rw [hh2, hincrby_eq_zincrby, hget_eq_zscore, hget_eq_zscore,
      zscore_zincrby_self]
  · intro v hv
    constructor
    · rw [hz2, zscore_zincrby_ne _ _ _ _ hv]
    · rw [hh2, hincrby_eq_zincrby, hget_eq_zscore, hget_eq_zscore,
        zscore_zincrby_ne _ _ _ _ hv]

/-- Witness for C10: the whitespace-only identifier of one space passes
validation. -/
theorem c10_no_normalization_w :
    (zPOST [("bob", 5)] (some " ")).1.status = 200 :=
  (c10_no_normalization [("bob", 5)] " " (by decide)).1

end BananaCounter
